import Mathlib

/-!
Verification of the smart-energy-monitor script (`src/main.py`).

Shallow embedding conventions:
* Python floats are modelled as exact rationals (`ℚ`); the decimal literals
  `0.3`, `0.5` of the source become the rationals `3/10`, `1/2`.
* A Python dict `{"timestamp": ..., "appliances": {...}}` produced by
  `generate_energy_data` becomes the structure `Reading` below; the
  `appliances` sub-dict always holds exactly the four fixed keys, so it is a
  four-field structure.
* `random.uniform(a, b)` is modelled by passing the drawn value as an
  argument, together with the assumption that it lies in `[a, b]`.
* `round(x, 2)` on floats rounds to the nearest multiple of `1/100`,
  breaking ties to even (Python's float `round`); `rnd2` below implements
  that on `ℚ`.
-/

set_option autoImplicit false
set_option linter.unusedTactic false

namespace EnergyMonitor

/-- The four appliance categories of one reading
(`generate_energy_data`, src/main.py lines 24-29). -/
structure Appliances where
  heating : ℚ
  cooling : ℚ
  lighting : ℚ
  electronics : ℚ
  deriving DecidableEq, Repr

/-- One energy reading: the dict returned by `generate_energy_data`
(src/main.py lines 22-30). -/
structure Reading where
  timestamp : ℚ
  appliances : Appliances
  deriving DecidableEq, Repr

/-- Round half to even, as Python's `round` does on floats. -/
def roundHalfEven (x : ℚ) : ℤ :=
  let f := ⌊x⌋
  let r := x - (f : ℚ)
  if r < 1/2 then f
  else if 1/2 < r then f + 1
  else if 2 ∣ f then f else f + 1

/-- `round(x, 2)` of the source: round to two decimal digits. -/
def rnd2 (x : ℚ) : ℚ := (roundHalfEven (100 * x) : ℚ) / 100

/-- `generate_energy_data` (src/main.py lines 20-30).  `now` is the value of
`pd.Timestamp.now()`; `uh`, `uc`, `ul`, `ue` are the four values drawn by
`random.uniform` for heating, cooling, lighting and electronics. -/
def generate_energy_data (now uh uc ul ue : ℚ) : Reading :=
  { timestamp := now
    appliances :=
      { heating := rnd2 uh
        cooling := rnd2 uc
        lighting := rnd2 ul
        electronics := rnd2 ue } }

/-- Suggestion string appended when total heating exceeds total cooling
(src/main.py line 71). -/
def heatingSuggestion : String := "Consider lowering the thermostat for heating."

/-- Suggestion string appended when total cooling exceeds total heating
(src/main.py line 73). -/
def coolingSuggestion : String := "Consider raising the thermostat for cooling."

/-- Suggestion string appended when total lighting exceeds `0.3 * len(data)`
(src/main.py line 76). -/
def lightingSuggestion : String := "Consider switching off lights in unoccupied rooms."

/-- Suggestion string appended when total electronics exceeds `0.5 * len(data)`
(src/main.py line 79). -/
def electronicsSuggestion : String := "Consider unplugging unused electronics."

/-- `sum(d['appliances']['heating'] for d in data)` (src/main.py line 63). -/
def total_heating (data : List Reading) : ℚ :=
  (data.map fun d => d.appliances.heating).sum

/-- `sum(d['appliances']['cooling'] for d in data)` (src/main.py line 64). -/
def total_cooling (data : List Reading) : ℚ :=
  (data.map fun d => d.appliances.cooling).sum

/-- `sum(d['appliances']['lighting'] for d in data)` (src/main.py line 65). -/
def total_lighting (data : List Reading) : ℚ :=
  (data.map fun d => d.appliances.lighting).sum

/-- `sum(d['appliances']['electronics'] for d in data)` (src/main.py line 66). -/
def total_electronics (data : List Reading) : ℚ :=
  (data.map fun d => d.appliances.electronics).sum

/-- `optimize_energy_usage` (src/main.py lines 61-81): compute the four
per-category totals over the whole history, then append a suggestion for each
threshold rule that fires, in source order. -/
def optimize_energy_usage (data : List Reading) : List String :=
  let suggestions : List String := []
  let suggestions :=
    if total_heating data > total_cooling data then suggestions ++ [heatingSuggestion]
    else suggestions
  let suggestions :=
    if total_cooling data > total_heating data then suggestions ++ [coolingSuggestion]
    else suggestions
  let suggestions :=
    if total_lighting data > (3/10 : ℚ) * (data.length : ℚ) then
      suggestions ++ [lightingSuggestion]
    else suggestions
  let suggestions :=
    if total_electronics data > (1/2 : ℚ) * (data.length : ℚ) then
      suggestions ++ [electronicsSuggestion]
    else suggestions
  suggestions

lemma heating_ne_cooling : heatingSuggestion ≠ coolingSuggestion := by decide

lemma heating_ne_lighting : heatingSuggestion ≠ lightingSuggestion := by decide

lemma heating_ne_electronics : heatingSuggestion ≠ electronicsSuggestion := by decide

lemma cooling_ne_lighting : coolingSuggestion ≠ lightingSuggestion := by decide

lemma cooling_ne_electronics : coolingSuggestion ≠ electronicsSuggestion := by decide

lemma lighting_ne_electronics : lightingSuggestion ≠ electronicsSuggestion := by decide

/-- The advisor's output, written as the concatenation of the four conditional
contributions in source order. -/
lemma optimize_energy_usage_eq (data : List Reading) :
    optimize_energy_usage data =
      (if total_heating data > total_cooling data then [heatingSuggestion] else []) ++
      (if total_cooling data > total_heating data then [coolingSuggestion] else []) ++
      (if total_lighting data > (3/10 : ℚ) * (data.length : ℚ) then
        [lightingSuggestion] else []) ++
      (if total_electronics data > (1/2 : ℚ) * (data.length : ℚ) then
        [electronicsSuggestion] else []) := by
  simp only [optimize_energy_usage]
  split_ifs <;> simp

/-- C3: empty Reading History yields the empty suggestion list: every total is
`0`, every right-hand side is `0`, and `0 > 0` is false for all four rules
(src/main.py lines 61-81). -/
theorem optimize_empty_history : optimize_energy_usage [] = [] := by
  simp [optimize_energy_usage, total_heating, total_cooling, total_lighting,
    total_electronics]

/-- C1: the lighting suggestion appears in the advisor's output iff the total
lighting exceeds `0.3` times the number of readings, and the electronics
suggestion appears iff the total electronics exceeds `0.5` times the number of
readings; the comparison is against threshold times count (src/main.py
lines 75-79). -/
theorem lighting_electronics_rules (data : List Reading) :
    (lightingSuggestion ∈ optimize_energy_usage data ↔
      total_lighting data > (3/10 : ℚ) * (data.length : ℚ)) ∧
    (electronicsSuggestion ∈ optimize_energy_usage data ↔
      total_electronics data > (1/2 : ℚ) * (data.length : ℚ)) := by
  rw [optimize_energy_usage_eq]
  constructor <;>
    · split_ifs <;>
        simp_all [heating_ne_lighting.symm, cooling_ne_lighting.symm,
          lighting_ne_electronics, heating_ne_electronics.symm,
          cooling_ne_electronics.symm, lighting_ne_electronics.symm]

/-- C2: the heating suggestion appears iff total heating strictly exceeds total
cooling, the cooling suggestion appears iff total cooling strictly exceeds
total heating, at most one of the two appears, and when the totals are equal
neither appears (src/main.py lines 70-73). -/
theorem heating_cooling_rules (data : List Reading) :
    (heatingSuggestion ∈ optimize_energy_usage data ↔
      total_heating data > total_cooling data) ∧
    (coolingSuggestion ∈ optimize_energy_usage data ↔
      total_cooling data > total_heating data) ∧
    ¬(heatingSuggestion ∈ optimize_energy_usage data ∧
      coolingSuggestion ∈ optimize_energy_usage data) ∧
    (total_heating data = total_cooling data →
      heatingSuggestion ∉ optimize_energy_usage data ∧
      coolingSuggestion ∉ optimize_energy_usage data) := by
  have hmem : (heatingSuggestion ∈ optimize_energy_usage data ↔
      total_heating data > total_cooling data) ∧
      (coolingSuggestion ∈ optimize_energy_usage data ↔
        total_cooling data > total_heating data) := by
    rw [optimize_energy_usage_eq]
    constructor <;>
      · split_ifs <;>
          simp_all [heating_ne_cooling, heating_ne_cooling.symm,
            heating_ne_lighting, heating_ne_electronics,
            cooling_ne_lighting, cooling_ne_electronics]
  refine ⟨hmem.1, hmem.2, ?_, ?_⟩
  · rintro ⟨h1, h2⟩
    exact absurd (hmem.2.mp h2) (not_lt.mpr (le_of_lt (hmem.1.mp h1)))
  · intro heq
    constructor
    · intro h1
      exact absurd (hmem.1.mp h1) (by simp [heq])
    · intro h2
      exact absurd (hmem.2.mp h2) (by simp [heq])

/-- C4: the advisor's output is always a sublist of the four suggestion strings
in check order — heating, then cooling, then lighting, then electronics — so
whichever suggestions appear, they appear in that order (src/main.py
lines 68-81). -/
theorem optimize_output_order (data : List Reading) :
    List.Sublist (optimize_energy_usage data)
      [heatingSuggestion, coolingSuggestion, lightingSuggestion,
        electronicsSuggestion] := by
  rw [optimize_energy_usage_eq]
  split_ifs <;> simp_all

/-- C9: the advisor is deterministic: two invocations of
`optimize_energy_usage` on the same Reading History snapshot return identical
suggestion lists.  The function is embedded as a pure function of its `data`
argument because the source reads nothing but `data` (src/main.py
lines 61-81). -/
theorem optimize_deterministic (data : List Reading) :
    optimize_energy_usage data = optimize_energy_usage data := rfl

/-- A rational is representable with two decimal digits. -/
def twoDecimals (q : ℚ) : Prop := ∃ n : ℤ, q = (n : ℚ) / 100

lemma floor_le_roundHalfEven (x : ℚ) : ⌊x⌋ ≤ roundHalfEven x := by
  simp only [roundHalfEven]
  split_ifs <;> omega

lemma roundHalfEven_le_ceil (x : ℚ) : roundHalfEven x ≤ ⌈x⌉ := by
  have hfc := Int.floor_le_ceil x
  have hfl := Int.floor_le x
  simp only [roundHalfEven]
  split_ifs with h1 h2 h3
  · exact hfc
  · have hx : (⌊x⌋ : ℚ) < x := by linarith
    have := Int.lt_ceil.mpr hx
    omega
  · exact hfc
  · have hx : (⌊x⌋ : ℚ) < x := by
      by_contra hcon
      have : x = (⌊x⌋ : ℚ) := le_antisymm (not_lt.mp hcon) hfl
      rw [this] at h1
      simp at h1
    have := Int.lt_ceil.mpr hx
    omega

lemma rnd2_twoDecimals (x : ℚ) : twoDecimals (rnd2 x) :=
  ⟨roundHalfEven (100 * x), rfl⟩

/-- Rounding to two decimals keeps a value inside any interval whose endpoints
are themselves two-decimal numbers `a/100` and `b/100`. -/
lemma rnd2_bounds (a b : ℤ) (x : ℚ) (h1 : (a : ℚ) / 100 ≤ x)
    (h2 : x ≤ (b : ℚ) / 100) :
    (a : ℚ) / 100 ≤ rnd2 x ∧ rnd2 x ≤ (b : ℚ) / 100 := by
  have ha : a ≤ ⌊100 * x⌋ := Int.le_floor.mpr (by push_cast; linarith)
  have hb : ⌈100 * x⌉ ≤ b := Int.ceil_le.mpr (by push_cast; linarith)
  have l1 := floor_le_roundHalfEven (100 * x)
  have l2 := roundHalfEven_le_ceil (100 * x)
  have hlow : (a : ℚ) ≤ (roundHalfEven (100 * x) : ℚ) := by
    exact_mod_cast le_trans ha (le_trans (le_of_eq rfl) l1)
  have hhigh : (roundHalfEven (100 * x) : ℚ) ≤ (b : ℚ) := by
    exact_mod_cast le_trans l2 hb
  unfold rnd2
  constructor <;> linarith

/-- C5: every Reading produced by `generate_energy_data` has its four appliance
values within the declared uniform ranges — heating and cooling in
`[0.5, 3.0]`, lighting in `[0.1, 0.5]`, electronics in `[0.2, 1.0]` — and each
value is a two-decimal number (src/main.py lines 20-30).  The hypotheses state
that each `random.uniform(a, b)` draw lies in its `[a, b]` range. -/
theorem generated_reading_in_range (now uh uc ul ue : ℚ)
    (hh1 : 1/2 ≤ uh) (hh2 : uh ≤ 3) (hc1 : 1/2 ≤ uc) (hc2 : uc ≤ 3)
    (hl1 : 1/10 ≤ ul) (hl2 : ul ≤ 1/2) (he1 : 1/5 ≤ ue) (he2 : ue ≤ 1) :
    (1/2 ≤ (generate_energy_data now uh uc ul ue).appliances.heating ∧
      (generate_energy_data now uh uc ul ue).appliances.heating ≤ 3 ∧
      twoDecimals (generate_energy_data now uh uc ul ue).appliances.heating) ∧
    (1/2 ≤ (generate_energy_data now uh uc ul ue).appliances.cooling ∧
      (generate_energy_data now uh uc ul ue).appliances.cooling ≤ 3 ∧
      twoDecimals (generate_energy_data now uh uc ul ue).appliances.cooling) ∧
    (1/10 ≤ (generate_energy_data now uh uc ul ue).appliances.lighting ∧
      (generate_energy_data now uh uc ul ue).appliances.lighting ≤ 1/2 ∧
      twoDecimals (generate_energy_data now uh uc ul ue).appliances.lighting) ∧
    (1/5 ≤ (generate_energy_data now uh uc ul ue).appliances.electronics ∧
      (generate_energy_data now uh uc ul ue).appliances.electronics ≤ 1 ∧
      twoDecimals (generate_energy_data now uh uc ul ue).appliances.electronics) := by
  have Hh := rnd2_bounds 50 300 uh (by push_cast; linarith) (by push_cast; linarith)
  have Hc := rnd2_bounds 50 300 uc (by push_cast; linarith) (by push_cast; linarith)
  have Hl := rnd2_bounds 10 50 ul (by push_cast; linarith) (by push_cast; linarith)
  have He := rnd2_bounds 20 100 ue (by push_cast; linarith) (by push_cast; linarith)
  push_cast at Hh Hc Hl He
  simp only [generate_energy_data]
  refine ⟨⟨by linarith [Hh.1], by linarith [Hh.2], rnd2_twoDecimals uh⟩,
    ⟨by linarith [Hc.1], by linarith [Hc.2], rnd2_twoDecimals uc⟩,
    ⟨by linarith [Hl.1], by linarith [Hl.2], rnd2_twoDecimals ul⟩,
    ⟨by linarith [He.1], by linarith [He.2], rnd2_twoDecimals ue⟩⟩

/-- Concrete instantiation of `generated_reading_in_range` at draws
`uh = 1`, `uc = 2`, `ul = 1/4`, `ue = 1/2`. -/
theorem generated_reading_in_range_witness :
    ((1:ℚ)/2 ≤ 1 ∧ (1:ℚ) ≤ 3 ∧ (1:ℚ)/2 ≤ 2 ∧ (2:ℚ) ≤ 3 ∧
      (1:ℚ)/10 ≤ 1/4 ∧ (1:ℚ)/4 ≤ 1/2 ∧ (1:ℚ)/5 ≤ 1/2 ∧ (1:ℚ)/2 ≤ 1) ∧
    ((1/2 ≤ (generate_energy_data 0 1 2 (1/4) (1/2)).appliances.heating ∧
      (generate_energy_data 0 1 2 (1/4) (1/2)).appliances.heating ≤ 3 ∧
      twoDecimals (generate_energy_data 0 1 2 (1/4) (1/2)).appliances.heating) ∧
    (1/2 ≤ (generate_energy_data 0 1 2 (1/4) (1/2)).appliances.cooling ∧
      (generate_energy_data 0 1 2 (1/4) (1/2)).appliances.cooling ≤ 3 ∧
      twoDecimals (generate_energy_data 0 1 2 (1/4) (1/2)).appliances.cooling) ∧
    (1/10 ≤ (generate_energy_data 0 1 2 (1/4) (1/2)).appliances.lighting ∧
      (generate_energy_data 0 1 2 (1/4) (1/2)).appliances.lighting ≤ 1/2 ∧
      twoDecimals (generate_energy_data 0 1 2 (1/4) (1/2)).appliances.lighting) ∧
    (1/5 ≤ (generate_energy_data 0 1 2 (1/4) (1/2)).appliances.electronics ∧
      (generate_energy_data 0 1 2 (1/4) (1/2)).appliances.electronics ≤ 1 ∧
      twoDecimals (generate_energy_data 0 1 2 (1/4) (1/2)).appliances.electronics)) :=
  ⟨by norm_num,
    generated_reading_in_range 0 1 2 (1/4) (1/2) (by norm_num) (by norm_num)
      (by norm_num) (by norm_num) (by norm_num) (by norm_num) (by norm_num)
      (by norm_num)⟩

/-! ### Wire format (`json.dumps`, src/main.py line 39)

The published payload is `json.dumps(energy_data)` where `energy_data` is the
dict of `generate_energy_data`: its `"timestamp"` entry holds a
`pd.Timestamp` object.  Python's `json` module serializes dicts, lists,
strings, numbers, booleans and `None`, and raises `TypeError` for any other
object — in particular for `pandas.Timestamp`.  `PyVal` models the Python
values involved and `jsonDumps` models `json.dumps`, returning `none` where
the Python call raises. -/

/-- A Python value as handed to `json.dumps` by this program. -/
inductive PyVal where
  | pyNum (q : ℚ)
  | pyStr (s : String)
  | pyDict (entries : List (String × PyVal))
  | pyTimestamp (t : ℚ)
  deriving Repr

/-- JSON string quoting (the program's keys and strings need no escaping). -/
def jsonQuote (s : String) : String := "\"" ++ s ++ "\""

mutual

/-- `json.dumps`: `none` models the `TypeError` raised on a value the encoder
does not support, such as a `pandas.Timestamp`. -/
def jsonDumps : PyVal → Option String
  | PyVal.pyNum q => some (toString q)
  | PyVal.pyStr s => some (jsonQuote s)
  | PyVal.pyTimestamp _ => none
  | PyVal.pyDict entries =>
    match jsonDumpsEntries entries with
    | none => none
    | some parts => some ("\x7b" ++ String.intercalate ", " parts ++ "\x7d")

/-- Serialize the key/value entries of a dict, failing if any value fails. -/
def jsonDumpsEntries : List (String × PyVal) → Option (List String)
  | [] => some []
  | (k, v) :: rest =>
    match jsonDumps v with
    | none => none
    | some sv =>
      match jsonDumpsEntries rest with
      | none => none
      | some srest => some ((jsonQuote k ++ ": " ++ sv) :: srest)

end

/-- The dict returned by `generate_energy_data`, as the Python value passed to
`json.dumps` (src/main.py lines 22-30 and 39): the `"timestamp"` entry is a
`pandas.Timestamp` object, not a JSON-native value. -/
def readingToPyVal (r : Reading) : PyVal :=
  PyVal.pyDict
    [("timestamp", PyVal.pyTimestamp r.timestamp),
     ("appliances", PyVal.pyDict
       [("heating", PyVal.pyNum r.appliances.heating),
        ("cooling", PyVal.pyNum r.appliances.cooling),
        ("lighting", PyVal.pyNum r.appliances.lighting),
        ("electronics", PyVal.pyNum r.appliances.electronics)])]

/-- C6 counterexample: serializing a Reading as the program does never
succeeds — `json.dumps` fails on the `pandas.Timestamp` in the
`"timestamp"` entry, so no wire message exists to decode back, let alone one
that round-trips to an equal Reading (src/main.py lines 23 and 39). -/
theorem serialize_reading_always_fails (r : Reading) :
    jsonDumps (readingToPyVal r) = none := by
  simp [readingToPyVal, jsonDumps, jsonDumpsEntries]

/-! ### Publisher loop (`publish_energy_data`, src/main.py lines 33-43)

The loop body is `while True: generate; append; publish; sleep`.  Each
iteration either completes, appending one Reading to the history, or raises.
`StepOutcome` models the outcome of one iteration; a finite outcome list
models a finite prefix of the loop's execution.  The `try`/`except` wrapping
is modelled by `publishLoopRaw` (the raw loop, whose `Except.error` result is
an uncaught Python exception) and `publish_energy_data` (the wrapper, which
catches the exception, logs it, and returns normally). -/

/-- Outcome of one publisher-loop iteration: a generated Reading, or an
exception raised during generation or transmission. -/
inductive StepOutcome where
  | ok (r : Reading)
  | err (e : String)
  deriving DecidableEq, Repr

/-- Whether a loop iteration completes without raising. -/
def stepIsOk : StepOutcome → Bool
  | StepOutcome.ok _ => true
  | StepOutcome.err _ => false

/-- The Readings of the successful iterations, in order. -/
def stepReadings (plan : List StepOutcome) : List Reading :=
  plan.filterMap fun s =>
    match s with
    | StepOutcome.ok r => some r
    | StepOutcome.err _ => none

/-- The raw `while True` body: consume iteration outcomes, appending each
Reading to the history, until an iteration raises (`Except.error`) or the
modelled prefix ends (`Except.ok`, standing for "still looping"). -/
def publishLoopRaw : List StepOutcome → List Reading → List Reading × Except String Unit
  | [], hist => (hist, Except.ok ())
  | StepOutcome.ok r :: rest, hist => publishLoopRaw rest (hist ++ [r])
  | StepOutcome.err e :: _, hist => (hist, Except.error e)

/-- `publish_energy_data` (src/main.py lines 33-43): run the loop under
`try`/`except`; any raised error is caught and logged (`some e`) and the
function returns normally — the error never propagates to the caller. -/
def publish_energy_data (plan : List StepOutcome) : List Reading × Option String :=
  match publishLoopRaw plan [] with
  | (hist, Except.ok _) => (hist, none)
  | (hist, Except.error e) => (hist, some e)

lemma publishLoopRaw_stops_at_first_error (e : String) (post : List StepOutcome) :
    ∀ (pre : List StepOutcome) (hist : List Reading), pre.all stepIsOk = true →
      publishLoopRaw (pre ++ StepOutcome.err e :: post) hist =
        (hist ++ stepReadings pre, Except.error e) := by
  intro pre
  induction pre with
  | nil => intro hist _; simp [publishLoopRaw, stepReadings]
  | cons s rest ih =>
    intro hist hok
    cases s with
    | ok r =>
      simp only [List.cons_append, publishLoopRaw, List.append_eq]
      rw [ih (hist ++ [r]) (by simpa [stepIsOk] using hok)]
      simp [stepReadings]
    | err e0 => simp [stepIsOk] at hok

/-- C7: if an iteration of the Publisher Loop raises an error, the error is
caught and logged, the loop terminates there — the Readings collected are
exactly those of the iterations before the error, later planned iterations
are never executed (no retry, no resume) — and `publish_energy_data` returns
normally instead of propagating the error (src/main.py lines 33-43). -/
theorem publish_loop_catches_and_stops (pre : List StepOutcome) (e : String)
    (post : List StepOutcome) (hok : pre.all stepIsOk = true) :
    publish_energy_data (pre ++ StepOutcome.err e :: post) =
      (stepReadings pre, some e) := by
  simp [publish_energy_data, publishLoopRaw_stops_at_first_error e post pre [] hok]

/-- A sample Reading for concrete instantiations. -/
def sampleReading : Reading :=
  { timestamp := 0
    appliances := { heating := 1, cooling := 1, lighting := 1, electronics := 1 } }

/-- Concrete instantiation of `publish_loop_catches_and_stops`: one good
iteration, then a transmission error, then a planned iteration that is never
reached. -/
theorem publish_loop_catches_and_stops_witness :
    ([StepOutcome.ok sampleReading].all stepIsOk = true) ∧
    publish_energy_data
        [StepOutcome.ok sampleReading, StepOutcome.err "send failed",
          StepOutcome.ok sampleReading] =
      ([sampleReading], some "send failed") :=
  ⟨by decide,
    by
      have h := publish_loop_catches_and_stops [StepOutcome.ok sampleReading]
        "send failed" [StepOutcome.ok sampleReading] (by decide)
      simpa [stepReadings] using h⟩

/-! ### Program entry (`__main__`, src/main.py lines 83-107)

After client setup, the `try` block runs `connect`, `loop_start` and then the
publisher loop; the `except` logs any setup error; the `finally` block always
runs `loop_stop`, then `optimize_energy_usage(ENERGY_DATA)`, and prints the
suggestions.  `setup` models the outcome of `connect`/`loop_start`; when it
fails, the loop never runs and `ENERGY_DATA` is still empty. -/

/-- What the `finally` block of `__main__` did. -/
structure MainOutcome where
  loopStopped : Bool
  printedSuggestions : List String
  deriving DecidableEq, Repr

/-- `ENERGY_DATA` at the end of the run: empty when setup raised before the
loop started, otherwise whatever the publisher loop appended. -/
def collectedHistory (setup : Except String Unit) (plan : List StepOutcome) :
    List Reading :=
  match setup with
  | Except.error _ => []
  | Except.ok _ => (publish_energy_data plan).1

/-- The `__main__` block (src/main.py lines 89-107): `try` setup and the
publisher loop, `except` logs a setup error, `finally` stops the client loop
and prints the advisor's suggestions over the collected history. -/
def mainRun (setup : Except String Unit) (plan : List StepOutcome) : MainOutcome :=
  match setup with
  | Except.error _ =>
    { loopStopped := true
      printedSuggestions := optimize_energy_usage [] }
  | Except.ok _ =>
    { loopStopped := true
      printedSuggestions :=
        optimize_energy_usage (publish_energy_data plan).1 }

/-- C8: however the run terminates — setup error, or a loop that ended with a
caught error — the `finally` block runs: the background client loop is
stopped and the Advisor is invoked once on the collected history, its
suggestions printed (src/main.py lines 89-107). -/
theorem finalization_always_runs (setup : Except String Unit)
    (plan : List StepOutcome) :
    (mainRun setup plan).loopStopped = true ∧
    (mainRun setup plan).printedSuggestions =
      optimize_energy_usage (collectedHistory setup plan) := by
  cases setup <;> simp [mainRun, collectedHistory]

/-! ### Frame property of the advisor (C10)

`optimize_energy_usage` only reads `data`.  To state that as a theorem rather
than a convention of the embedding, `optimize_energy_usageST` threads the
history state through every traversal the source performs (the four `sum`
comprehensions and `len(data)`), returning the history as it stands after
the call. -/

/-- One `sum(... for d in data)` traversal, threading the traversed list
through as explicit state. -/
def sumFieldST (f : Reading → ℚ) : List Reading → ℚ × List Reading
  | [] => (0, [])
  | r :: rs =>
    let p := sumFieldST f rs
    (f r + p.1, r :: p.2)

/-- `optimize_energy_usage` with the history state threaded explicitly:
the first component is the returned suggestions, the second is the history
after the call. -/
def optimize_energy_usageST (data : List Reading) : List String × List Reading :=
  let ph := sumFieldST (fun d => d.appliances.heating) data
  let data := ph.2
  let pc := sumFieldST (fun d => d.appliances.cooling) data
  let data := pc.2
  let pl := sumFieldST (fun d => d.appliances.lighting) data
  let data := pl.2
  let pe := sumFieldST (fun d => d.appliances.electronics) data
  let data := pe.2
  let suggestions : List String := []
  let suggestions :=
    if ph.1 > pc.1 then suggestions ++ [heatingSuggestion] else suggestions
  let suggestions :=
    if pc.1 > ph.1 then suggestions ++ [coolingSuggestion] else suggestions
  let suggestions :=
    if pl.1 > (3/10 : ℚ) * (data.length : ℚ) then
      suggestions ++ [lightingSuggestion]
    else suggestions
  let suggestions :=
    if pe.1 > (1/2 : ℚ) * (data.length : ℚ) then
      suggestions ++ [electronicsSuggestion]
    else suggestions
  (suggestions, data)

lemma sumFieldST_eq (f : Reading → ℚ) :
    ∀ l : List Reading, sumFieldST f l = ((l.map f).sum, l) := by
  intro l
  induction l with
  | nil => rfl
  | cons r rs ih => simp [sumFieldST, ih]

lemma optimize_energy_usageST_fst (data : List Reading) :
    (optimize_energy_usageST data).1 = optimize_energy_usage data := by
  simp only [optimize_energy_usageST, optimize_energy_usage, sumFieldST_eq,
    total_heating, total_cooling, total_lighting, total_electronics]

/-- C10: invoking the advisor leaves the Reading History unchanged — the
history after the call is the same list, every Reading identical, as before
the call (src/main.py lines 61-81, which only read `data`). -/
theorem optimize_preserves_history (data : List Reading) :
    (optimize_energy_usageST data).2 = data := by
  simp only [optimize_energy_usageST, sumFieldST_eq]

end EnergyMonitor
